import Mathlib

/-!
Shallow embedding of the MCP-StreamableHttp echo server
(`src/index.ts`, primary variant, plus the unnamed secondary variant where a
claim depends on it: the secondary variant's echo tool handler and its
`transport.onclose` hook).

The express request/response cycle is modelled functionally: a handler takes
the shared server state (the `transports` registry and the session counter),
a request description, and — where the code awaits `transport.handleRequest`,
whose behaviour is decided by the SDK transport and the network — an explicit
outcome parameter; it returns the new state plus a description of the
response (status, the `setHeader`/`header` calls in order, and the sequence
of body writes).
-/

namespace MCPServer

/-- Outcome of an awaited `transport.handleRequest(req, res, ...)` call: the
transport either resolves after writing the response itself, or rejects
before anything was flushed (`res.headersSent` still `false`), or rejects
after the response has started (`res.headersSent` is `true`). -/
inductive HandleOutcome where
  | ok
  | throwClean
  | throwAfterSend
deriving DecidableEq, Repr

/-- A transport as far as the registry logic observes it: an identity, the
SDK-assigned `sessionId` (set on initialization, `none` before), and whether
an `onclose` hook was installed on it. `src/index.ts` never assigns
`transport.onclose`; the secondary variant's `createMcpSession` does. -/
structure Transport where
  tid : Nat
  sdkSessionId : Option String
  hasOncloseHook : Bool
deriving DecidableEq, Repr

/-- The `transports` object: a string-keyed map, embedded as an association
list with JavaScript object semantics (assignment overwrites, `delete`
removes, `Object.keys` lists the keys). -/
abbrev Registry := List (String × Transport)

/-- `transports[k]` (property read). -/
def objGet (reg : Registry) (k : String) : Option Transport :=
  (List.find? (fun p => p.1 = k) reg).map Prod.snd

/-- `transports[k] = v` (property assignment: overwrite or append). -/
def objSet (reg : Registry) (k : String) (v : Transport) : Registry :=
  if (List.find? (fun p => p.1 = k) reg).isSome then
    List.map (fun p => if p.1 = k then (k, v) else p) reg
  else
    reg ++ [(k, v)]

/-- `delete transports[k]`. -/
def objDelete (reg : Registry) (k : String) : Registry :=
  List.filter (fun p => ¬ p.1 = k) reg

/-- `Object.keys(transports)`. -/
def objKeys (reg : Registry) : List String :=
  List.map Prod.fst reg

/-- Shared mutable server state: the module-level `transports` registry and
the `sessionCounter` of `src/index.ts`. -/
structure ServerState where
  transports : Registry
  sessionCounter : Nat
deriving DecidableEq, Repr

/-- The fields of `req.body` that the dispatch logic reads: `method`,
`params.name`, `params.arguments.message` (flattened through the optional
chain: `none` when `params`, `arguments` or `message` is absent), and the
JSON-RPC `id`. -/
structure RpcBody where
  method : Option String
  paramsName : Option String
  message : Option String
  rpcId : Option String
deriving DecidableEq, Repr

/-- An inbound HTTP request as the handlers observe it: the
`mcp-session-id` header, the `Origin` header, and the parsed JSON body
(`none` when there is no body). -/
structure Request where
  sessionHeader : Option String
  origin : Option String
  body : Option RpcBody
deriving DecidableEq, Repr

/-- One body write on the response. -/
inductive Body where
  | echoResult (rid : Option String) (text : String)
  | rpcError (code : Int) (message : String) (rid : Option String)
  | plainError (msg : String)
  | health (status : String) (activeSessions : Nat)
  | transportHandled
  | halfSent
deriving DecidableEq, Repr

/-- The response as observed by the client: final status code, the headers
set on it (in the order the code sets them), and the sequence of body
writes. -/
structure Response where
  status : Nat
  headers : List (String × String)
  writes : List Body
deriving DecidableEq, Repr

/-- JavaScript `v || fallback` on an optional string: `undefined` and the
empty string are falsy. -/
def jsOr (v : Option String) (fallback : String) : String :=
  match v with
  | none => fallback
  | some s => if s = "" then fallback else s

/-- JavaScript `v || null` on the optional JSON-RPC id (`req.body?.id || null`):
the empty string is falsy and collapses to `null`. -/
def jsOrNull (v : Option String) : Option String :=
  match v with
  | none => none
  | some s => if s = "" then none else some s

/-- The `corsOptions.origin` allow-list of `src/index.ts`. -/
def allowedOrigins : List String :=
  ["http://localhost:5173", "http://localhost:3000"]

/-- Headers contributed by the `cors(corsOptions)` middleware that runs
before every route handler. Modelled from the `cors` npm package as
configured by `corsOptions`: with an array `origin` option the request's
`Origin` header is reflected only when it is in the allow-list (otherwise no
`Access-Control-Allow-Origin` header is set), and `credentials: true` sets
`Access-Control-Allow-Credentials: true` on every response. -/
def corsMiddlewareHeaders (origin : Option String) : List (String × String) :=
  (match origin with
   | some o => if o ∈ allowedOrigins then [("Access-Control-Allow-Origin", o)] else []
   | none => []) ++ [("Access-Control-Allow-Credentials", "true")]

/-- `req.headers.origin || "*"`, the value both the POST and DELETE handlers
pass to `res.header("Access-Control-Allow-Origin", ...)`. -/
def originOrStar (origin : Option String) : String :=
  jsOr origin "*"

/-- The condition of the manual echo intercept in the POST handler:
`req.body?.method === "tools/call" && req.body?.params?.name === "echo"`. -/
def isEchoIntercept (body : Option RpcBody) : Bool :=
  match body with
  | none => false
  | some b => b.method = some "tools/call" ∧ b.paramsName = some "echo"

/-- The fresh session id of `src/index.ts`:
`session-${++sessionCounter}-${Date.now()}` with the incremented counter. -/
def newSessionIdStr (counter : Nat) (now : Nat) : String :=
  "session-" ++ toString counter ++ "-" ++ toString now

/-- The result of running a handler: the server state afterwards, the
response, the transport whose `handleRequest` was invoked (`none` when the
handler replied without routing through any transport), and whether
`transport.close?.()` was invoked during the handler (only the DELETE
handler ever calls it). -/
structure HandlerResult where
  state : ServerState
  response : Response
  routed : Option Transport
  closeInvoked : Bool
deriving DecidableEq, Repr

/-- `GET /health` of `src/index.ts`: always replies with
`{ status: "healthy", activeSessions: Object.keys(transports).length, ... }`
(the ISO timestamp is outside the model). -/
def healthGet (st : ServerState) (req : Request) : HandlerResult :=
  { state := st
    response :=
      { status := 200
        headers := corsMiddlewareHeaders req.origin
        writes := [Body.health "healthy" (objKeys st.transports).length] }
    routed := none
    closeInvoked := false }

/-- `POST /mcp` of `src/index.ts`. `out` is the behaviour of the awaited
`transport.handleRequest` call on this request; `now` is `Date.now()`.
The echo intercept replies manually and returns before any session handling;
otherwise the handler routes through an existing registered transport, or
creates and registers a fresh one and sets the `mcp-session-id` response
header. The catch block replies 500 with JSON-RPC code -32603 only when
`res.headersSent` is still false. -/
def postMcp (st : ServerState) (req : Request) (out : HandleOutcome)
    (newT : Transport) (now : Nat) : HandlerResult :=
  let mw := corsMiddlewareHeaders req.origin
  let hdrs := mw ++
    [("Access-Control-Allow-Origin", originOrStar req.origin),
     ("Access-Control-Allow-Credentials", "true")]
  if isEchoIntercept req.body then
    let message := jsOr (req.body.bind (fun b => b.message)) "No message provided"
    { state := st
      response :=
        { status := 200
          headers := hdrs ++ [("Content-Type", "application/json")]
          writes := [Body.echoResult (req.body.bind (fun b => b.rpcId)) message] }
      routed := none
      closeInvoked := false }
  else
    let afterSetup : ServerState × List (String × String) × Transport :=
      match req.sessionHeader.bind (fun sid => objGet st.transports sid) with
      | some t => (st, hdrs, t)
      | none =>
          let nid := newSessionIdStr (st.sessionCounter + 1) now
          ({ transports := objSet st.transports nid newT
             sessionCounter := st.sessionCounter + 1 },
           hdrs ++ [("mcp-session-id", nid)], newT)
    match out with
    | HandleOutcome.ok =>
        { state := afterSetup.1
          response := { status := 200, headers := afterSetup.2.1
                        writes := [Body.transportHandled] }
          routed := some afterSetup.2.2
          closeInvoked := false }
    | HandleOutcome.throwClean =>
        { state := afterSetup.1
          response :=
            { status := 500
              headers := afterSetup.2.1
              writes := [Body.rpcError (-32603) "Internal server error"
                           (jsOrNull (req.body.bind (fun b => b.rpcId)))] }
          routed := some afterSetup.2.2
          closeInvoked := false }
    | HandleOutcome.throwAfterSend =>
        { state := afterSetup.1
          response := { status := 200, headers := afterSetup.2.1
                        writes := [Body.halfSent] }
          routed := some afterSetup.2.2
          closeInvoked := false }

/-- `GET /mcp` of `src/index.ts`: with an absent or unregistered
`mcp-session-id` header it replies 400 at once — before the handler sets any
header itself — and otherwise sets the SSE headers and routes through the
registered transport; its catch block replies 500 without a `headersSent`
guard. -/
def getMcp (st : ServerState) (req : Request) (out : HandleOutcome) : HandlerResult :=
  let mw := corsMiddlewareHeaders req.origin
  match req.sessionHeader.bind (fun sid => objGet st.transports sid) with
  | none =>
      { state := st
        response := { status := 400, headers := mw
                      writes := [Body.plainError "Missing or invalid session"] }
        routed := none
        closeInvoked := false }
  | some t =>
      let hdrs := mw ++
        [("Access-Control-Allow-Origin", originOrStar req.origin),
         ("Access-Control-Allow-Credentials", "true"),
         ("Content-Type", "text/event-stream"),
         ("Cache-Control", "no-cache"),
         ("Connection", "keep-alive")]
      match out with
      | HandleOutcome.ok =>
          { state := st
            response := { status := 200, headers := hdrs
                          writes := [Body.transportHandled] }
            routed := some t
            closeInvoked := false }
      | HandleOutcome.throwClean =>
          { state := st
            response := { status := 500, headers := hdrs
                          writes := [Body.plainError "Internal server error"] }
            routed := some t
            closeInvoked := false }
      | HandleOutcome.throwAfterSend =>
          { state := st
            response := { status := 500, headers := hdrs
                          writes := [Body.halfSent,
                                     Body.plainError "Internal server error"] }
            routed := some t
            closeInvoked := false }

/-- `DELETE /mcp` of `src/index.ts`: sets the CORS headers, replies 400 when
the `mcp-session-id` header is absent or unregistered, and otherwise awaits
`transport.handleRequest`; only when that resolves does it invoke
`transport.close?.()` and `delete transports[sessionId]`. Any rejection is
caught and answered with a plain 500. -/
def deleteMcp (st : ServerState) (req : Request) (out : HandleOutcome) : HandlerResult :=
  let mw := corsMiddlewareHeaders req.origin
  let hdrs := mw ++
    [("Access-Control-Allow-Origin", originOrStar req.origin),
     ("Access-Control-Allow-Credentials", "true")]
  match req.sessionHeader with
  | none =>
      { state := st
        response := { status := 400, headers := hdrs
                      writes := [Body.plainError "Missing or invalid session"] }
        routed := none
        closeInvoked := false }
  | some sid =>
      match objGet st.transports sid with
      | none =>
          { state := st
            response := { status := 400, headers := hdrs
                          writes := [Body.plainError "Missing or invalid session"] }
            routed := none
            closeInvoked := false }
      | some t =>
          match out with
          | HandleOutcome.ok =>
              { state := { st with transports := objDelete st.transports sid }
                response := { status := 200, headers := hdrs
                              writes := [Body.transportHandled] }
                routed := some t
                closeInvoked := true }
          | HandleOutcome.throwClean =>
              { state := st
                response := { status := 500, headers := hdrs
                              writes := [Body.plainError "Internal server error"] }
                routed := some t
                closeInvoked := false }
          | HandleOutcome.throwAfterSend =>
              { state := st
                response := { status := 500, headers := hdrs
                              writes := [Body.halfSent,
                                         Body.plainError "Internal server error"] }
                routed := some t
                closeInvoked := false }

/-- Firing a transport's close signal against the registry: `src/index.ts`
installs no `onclose` hook, so closure runs nothing; the secondary variant's
`createMcpSession` installs
`() => { if (transport.sessionId) delete transports[transport.sessionId] }`. -/
def fireTransportClose (reg : Registry) (t : Transport) : Registry :=
  if t.hasOncloseHook then
    match t.sdkSessionId with
    | some sid => objDelete reg sid
    | none => reg
  else reg

/-- The transport constructed inside the POST handler of `src/index.ts`
(lines 96-100): fresh `StreamableHTTPServerTransport` with only an
`onsessioninitialized` logger — no `onclose` hook is ever assigned to it. -/
def indexTsTransport (tid : Nat) (sdkSid : Option String) : Transport :=
  { tid := tid, sdkSessionId := sdkSid, hasOncloseHook := false }

/-- The transport produced by `createMcpSession` of the secondary variant:
same construction but with the `onclose` hook installed. -/
def variantTransport (tid : Nat) (sdkSid : Option String) : Transport :=
  { tid := tid, sdkSessionId := sdkSid, hasOncloseHook := true }

/-- The echo tool handler registered in the secondary variant
(`async (args) => { const message = args.message || "No message provided"; ... }`):
the text content it replies with. -/
def variantEchoText (message : Option String) : String :=
  jsOr message "No message provided"

/-- A `POST /mcp` request body matching the manual echo intercept:
`method = "tools/call"`, `params.name = "echo"`, with the given
`arguments.message` (or `none` when absent) and JSON-RPC id. -/
def echoCallRequest (sh orig rid m : Option String) : Request :=
  { sessionHeader := sh
    origin := orig
    body := some { method := some "tools/call", paramsName := some "echo"
                   message := m, rpcId := rid } }

/-- The ids with a registered session. -/
def registeredIds (st : ServerState) : Finset String :=
  (objKeys st.transports).toFinset

/-! ### Registry lemmas -/

theorem objGet_cons (p : String × Transport) (tl : Registry) (k : String) :
    objGet (p :: tl) k = if p.1 = k then some p.2 else objGet tl k := by
  by_cases h : p.1 = k <;> simp [objGet, List.find?, h]

theorem objDelete_cons (p : String × Transport) (tl : Registry) (k : String) :
    objDelete (p :: tl) k = if p.1 = k then objDelete tl k else p :: objDelete tl k := by
  by_cases h : p.1 = k <;> simp [objDelete, List.filter, h]

theorem objGet_objDelete_self (reg : Registry) (k : String) :
    objGet (objDelete reg k) k = none := by
  induction reg with
  | nil => rfl
  | cons p tl ih =>
      rw [objDelete_cons]
      by_cases hp : p.1 = k
      · rw [if_pos hp]; exact ih
      · rw [if_neg hp, objGet_cons, if_neg hp]; exact ih

theorem objGet_objDelete_other (reg : Registry) (k k2 : String) (h : k2 ≠ k) :
    objGet (objDelete reg k) k2 = objGet reg k2 := by
  induction reg with
  | nil => rfl
  | cons p tl ih =>
      rw [objDelete_cons]
      by_cases hp : p.1 = k
      · have hp2 : ¬ p.1 = k2 := fun e => h (e.symm.trans hp)
        rw [if_pos hp, ih, objGet_cons, if_neg hp2]
      · rw [if_neg hp, objGet_cons, objGet_cons, ih]

theorem objSet_of_fresh (reg : Registry) (k : String) (v : Transport)
    (h : objGet reg k = none) : objSet reg k v = reg ++ [(k, v)] := by
  unfold objSet
  have hf : List.find? (fun p => p.1 = k) reg = none := by
    unfold objGet at h
    cases hf : List.find? (fun p => p.1 = k) reg with
    | none => rfl
    | some p => rw [hf] at h; simp at h
  simp [hf]

theorem objGet_append_singleton_self (reg : Registry) (k : String) (v : Transport)
    (h : objGet reg k = none) : objGet (reg ++ [(k, v)]) k = some v := by
  induction reg with
  | nil => simp [objGet, List.find?]
  | cons p tl ih =>
      have hp : ¬ p.1 = k := by
        intro e
        rw [objGet_cons, if_pos e] at h
        exact Option.noConfusion h
      rw [objGet_cons, if_neg hp] at h
      rw [List.cons_append, objGet_cons, if_neg hp]
      exact ih h

theorem objGet_append_singleton_other (reg : Registry) (k k2 : String) (v : Transport)
    (h : k2 ≠ k) : objGet (reg ++ [(k, v)]) k2 = objGet reg k2 := by
  induction reg with
  | nil =>
      have hk : ¬ (k, v).1 = k2 := fun e => h e.symm
      simp [objGet, List.find?, hk]
  | cons p tl ih =>
      rw [List.cons_append, objGet_cons, objGet_cons, ih]

theorem objGet_isSome_iff_mem_keys (reg : Registry) (k : String) :
    (objGet reg k).isSome ↔ k ∈ objKeys reg := by
  induction reg with
  | nil => simp [objGet, objKeys, List.find?]
  | cons p tl ih =>
      rw [objGet_cons]
      by_cases hp : p.1 = k
      · simp [objKeys, hp]
      · have hk : ¬ k = p.1 := fun e => hp e.symm
        rw [if_neg hp]
        simpa [objKeys, List.map_cons, hk] using ih

/-! ### Handler branch lemmas -/

theorem countP_sid_corsMW (o : Option String) :
    List.countP (fun p => p.1 = "mcp-session-id") (corsMiddlewareHeaders o) = 0 := by
  cases o with
  | none => rfl
  | some s =>
      by_cases h : s ∈ allowedOrigins <;>
        simp [corsMiddlewareHeaders, h, List.countP_cons]

theorem postMcp_create (st : ServerState) (req : Request) (out : HandleOutcome)
    (t : Transport) (now : Nat)
    (hni : isEchoIntercept req.body = false)
    (hno : req.sessionHeader.bind (fun s => objGet st.transports s) = none) :
    (postMcp st req out t now).state
      = { transports := objSet st.transports (newSessionIdStr (st.sessionCounter + 1) now) t
          sessionCounter := st.sessionCounter + 1 } ∧
    (postMcp st req out t now).response.headers
      = corsMiddlewareHeaders req.origin ++
        [("Access-Control-Allow-Origin", originOrStar req.origin),
         ("Access-Control-Allow-Credentials", "true"),
         ("mcp-session-id", newSessionIdStr (st.sessionCounter + 1) now)] ∧
    (postMcp st req out t now).routed = some t := by
  cases out <;> refine ⟨?_, ?_, ?_⟩ <;>
    simp [postMcp, hni, hno, List.append_assoc]

theorem postMcp_existing (st : ServerState) (req : Request) (out : HandleOutcome)
    (newT : Transport) (now : Nat) (sid : String) (t : Transport)
    (hni : isEchoIntercept req.body = false)
    (hsh : req.sessionHeader = some sid)
    (hreg : objGet st.transports sid = some t) :
    (postMcp st req out newT now).state = st ∧
    (postMcp st req out newT now).routed = some t ∧
    (postMcp st req out newT now).response.headers
      = corsMiddlewareHeaders req.origin ++
        [("Access-Control-Allow-Origin", originOrStar req.origin),
         ("Access-Control-Allow-Credentials", "true")] := by
  cases out <;> refine ⟨?_, ?_, ?_⟩ <;>
    simp [postMcp, hni, hsh, hreg, List.append_assoc]

/-! ### Claim theorems -/

/-- C1, counterexample: the claim fails at `m = ""`. The manual echo
intercept computes `arguments?.message || "No message provided"`, and the
empty string is falsy in JavaScript, so the echo of `""` is the fallback
text rather than `""`. -/
theorem echo_empty_string_counterexample :
    (postMcp ⟨[], 0⟩ (echoCallRequest none none (some "1") (some "")) HandleOutcome.ok
        (indexTsTransport 1 none) 0).response.writes
      = [Body.echoResult (some "1") "No message provided"] ∧
    ("No message provided" : String) ≠ "" := by
  exact ⟨rfl, by decide⟩

/-- C1 (amended): for every nonempty string `m`, a POST /mcp echo tool call
with `arguments.message = m` replies 200 with text payload exactly `m`,
unmodified, and leaves the server state unchanged; for the empty string the
fallback text is returned instead. -/
theorem echo_roundtrip_nonempty (st : ServerState) (m : String) (hm : ¬ m = "")
    (sh orig rid : Option String) (out : HandleOutcome) (t : Transport) (now : Nat) :
    (postMcp st (echoCallRequest sh orig rid (some m)) out t now).response.status = 200 ∧
    (postMcp st (echoCallRequest sh orig rid (some m)) out t now).response.writes
      = [Body.echoResult rid m] ∧
    (postMcp st (echoCallRequest sh orig rid (some m)) out t now).state = st := by
  refine ⟨?_, ?_, ?_⟩ <;>
    simp [postMcp, echoCallRequest, isEchoIntercept, jsOr, hm]

/-- Witness for `echo_roundtrip_nonempty` at the control-character string
`"\t\n"` against the empty initial state. -/
theorem echo_roundtrip_nonempty_witness :
    (postMcp ⟨[], 0⟩ (echoCallRequest none none (some "7") (some "\t\n")) HandleOutcome.ok
        (indexTsTransport 1 none) 0).response.status = 200 ∧
    (postMcp ⟨[], 0⟩ (echoCallRequest none none (some "7") (some "\t\n")) HandleOutcome.ok
        (indexTsTransport 1 none) 0).response.writes
      = [Body.echoResult (some "7") "\t\n"] ∧
    (postMcp ⟨[], 0⟩ (echoCallRequest none none (some "7") (some "\t\n")) HandleOutcome.ok
        (indexTsTransport 1 none) 0).state = ⟨[], 0⟩ :=
  echo_roundtrip_nonempty ⟨[], 0⟩ "\t\n" (by decide) none none (some "7")
    HandleOutcome.ok (indexTsTransport 1 none) 0

/-- C4: an echo tool call whose arguments lack a `message` field replies 200
with the fixed fallback text "No message provided" and never with a
JSON-RPC error envelope. -/
theorem echo_missing_message_fallback (st : ServerState) (sh orig rid : Option String)
    (out : HandleOutcome) (t : Transport) (now : Nat) :
    (postMcp st (echoCallRequest sh orig rid none) out t now).response.status = 200 ∧
    (postMcp st (echoCallRequest sh orig rid none) out t now).response.writes
      = [Body.echoResult rid "No message provided"] := by
  refine ⟨?_, ?_⟩ <;> simp [postMcp, echoCallRequest, isEchoIntercept, jsOr]

/-- C3: a GET /mcp or DELETE /mcp request whose `mcp-session-id` header is
absent, or names no registered session, replies HTTP 400 and leaves the
server state unchanged (no session is created). -/
theorem get_delete_unknown_session_400 (st : ServerState) (req : Request)
    (outg outd : HandleOutcome)
    (h : req.sessionHeader.bind (fun sid => objGet st.transports sid) = none) :
    (getMcp st req outg).response.status = 400 ∧ (getMcp st req outg).state = st ∧
    (deleteMcp st req outd).response.status = 400 ∧ (deleteMcp st req outd).state = st := by
  cases hsh : req.sessionHeader with
  | none => refine ⟨?_, ?_, ?_, ?_⟩ <;> simp [getMcp, deleteMcp, hsh]
  | some sid =>
      rw [hsh] at h
      have h2 : objGet st.transports sid = none := h
      refine ⟨?_, ?_, ?_, ?_⟩ <;> simp [getMcp, deleteMcp, hsh, h2]

/-- Witness for `get_delete_unknown_session_400`: the header names a session
the empty registry does not hold. -/
theorem get_delete_unknown_session_400_witness :
    (getMcp ⟨[], 0⟩ ⟨some "ghost", none, none⟩ HandleOutcome.ok).response.status = 400 ∧
    (getMcp ⟨[], 0⟩ ⟨some "ghost", none, none⟩ HandleOutcome.ok).state = ⟨[], 0⟩ ∧
    (deleteMcp ⟨[], 0⟩ ⟨some "ghost", none, none⟩ HandleOutcome.ok).response.status = 400 ∧
    (deleteMcp ⟨[], 0⟩ ⟨some "ghost", none, none⟩ HandleOutcome.ok).state = ⟨[], 0⟩ :=
  get_delete_unknown_session_400 ⟨[], 0⟩ ⟨some "ghost", none, none⟩
    HandleOutcome.ok HandleOutcome.ok rfl

/-- C5: once a DELETE /mcp on a registered session id completes (the routed
close request resolved), the id is no longer registered, and both a
subsequent GET /mcp and a subsequent DELETE /mcp carrying the same id reply
HTTP 400. -/
theorem delete_then_subsequent_400 (st : ServerState) (sid : String) (t : Transport)
    (h : objGet st.transports sid = some t)
    (req req2 req3 : Request)
    (h1 : req.sessionHeader = some sid) (h2 : req2.sessionHeader = some sid)
    (h3 : req3.sessionHeader = some sid) (out2 out3 : HandleOutcome) :
    objGet (deleteMcp st req HandleOutcome.ok).state.transports sid = none ∧
    (getMcp (deleteMcp st req HandleOutcome.ok).state req2 out2).response.status = 400 ∧
    (deleteMcp (deleteMcp st req HandleOutcome.ok).state req3 out3).response.status = 400 := by
  have hdel : (deleteMcp st req HandleOutcome.ok).state
      = { st with transports := objDelete st.transports sid } := by
    simp [deleteMcp, h1, h]
  have hnone : objGet (objDelete st.transports sid) sid = none :=
    objGet_objDelete_self st.transports sid
  refine ⟨by rw [hdel]; exact hnone, ?_, ?_⟩
  · rw [hdel]; simp [getMcp, h2, hnone]
  · rw [hdel]; simp [deleteMcp, h3, hnone]

/-- Witness for `delete_then_subsequent_400` on a one-session registry. -/
theorem delete_then_subsequent_400_witness :
    objGet (deleteMcp ⟨[("s1", indexTsTransport 1 none)], 1⟩ ⟨some "s1", none, none⟩
        HandleOutcome.ok).state.transports "s1" = none ∧
    (getMcp (deleteMcp ⟨[("s1", indexTsTransport 1 none)], 1⟩ ⟨some "s1", none, none⟩
        HandleOutcome.ok).state ⟨some "s1", none, none⟩ HandleOutcome.ok).response.status = 400 ∧
    (deleteMcp (deleteMcp ⟨[("s1", indexTsTransport 1 none)], 1⟩ ⟨some "s1", none, none⟩
        HandleOutcome.ok).state ⟨some "s1", none, none⟩ HandleOutcome.ok).response.status = 400 :=
  delete_then_subsequent_400 ⟨[("s1", indexTsTransport 1 none)], 1⟩ "s1"
    (indexTsTransport 1 none) rfl ⟨some "s1", none, none⟩ ⟨some "s1", none, none⟩
    ⟨some "s1", none, none⟩ rfl rfl rfl HandleOutcome.ok HandleOutcome.ok

/-- C9, counterexample: `src/index.ts` never assigns `transport.onclose`,
so a channel signalling closure on its own removes nothing — the registry
retains the entry for the closed channel. -/
theorem onclose_no_cleanup_counterexample :
    fireTransportClose [("session-1-7", indexTsTransport 1 (some "sdk-1"))]
        (indexTsTransport 1 (some "sdk-1"))
      = [("session-1-7", indexTsTransport 1 (some "sdk-1"))] ∧
    objGet (fireTransportClose [("session-1-7", indexTsTransport 1 (some "sdk-1"))]
        (indexTsTransport 1 (some "sdk-1"))) "session-1-7"
      = some (indexTsTransport 1 (some "sdk-1")) :=
  ⟨rfl, rfl⟩

/-- C9 (amended): in the secondary variant — whose `createMcpSession`
installs the `onclose` hook — a channel signalling closure on a transport
with an assigned session id removes that id from the registry; in
`src/index.ts` no `onclose` hook is installed and self-closure leaves the
registry untouched. -/
theorem variant_onclose_removes_session (reg : Registry) (tid : Nat) (sid : String) :
    objGet (fireTransportClose reg (variantTransport tid (some sid))) sid = none ∧
    ∀ (tid2 : Nat) (sdkSid : Option String),
      fireTransportClose reg (indexTsTransport tid2 sdkSid) = reg := by
  constructor
  · exact objGet_objDelete_self reg sid
  · intro tid2 sdkSid
    rfl

/-- C10: when a DELETE /mcp on a registered session id fails because routing
the close request through the channel throws, the handler replies HTTP 500,
the close hook is not invoked, and the session stays registered — the
server state is unchanged. -/
theorem delete_error_preserves_session (st : ServerState) (req : Request) (sid : String)
    (t : Transport) (h1 : req.sessionHeader = some sid)
    (h : objGet st.transports sid = some t)
    (out : HandleOutcome) (hout : ¬ out = HandleOutcome.ok) :
    (deleteMcp st req out).state = st ∧
    (deleteMcp st req out).response.status = 500 ∧
    (deleteMcp st req out).closeInvoked = false ∧
    objGet (deleteMcp st req out).state.transports sid = some t := by
  cases out with
  | ok => exact absurd rfl hout
  | throwClean => refine ⟨?_, ?_, ?_, ?_⟩ <;> simp [deleteMcp, h1, h]
  | throwAfterSend => refine ⟨?_, ?_, ?_, ?_⟩ <;> simp [deleteMcp, h1, h]

/-- Witness for `delete_error_preserves_session` on a one-session registry
with a cleanly rejecting `handleRequest`. -/
theorem delete_error_preserves_session_witness :
    (deleteMcp ⟨[("s1", indexTsTransport 1 none)], 1⟩ ⟨some "s1", none, none⟩
        HandleOutcome.throwClean).state = ⟨[("s1", indexTsTransport 1 none)], 1⟩ ∧
    (deleteMcp ⟨[("s1", indexTsTransport 1 none)], 1⟩ ⟨some "s1", none, none⟩
        HandleOutcome.throwClean).response.status = 500 ∧
    (deleteMcp ⟨[("s1", indexTsTransport 1 none)], 1⟩ ⟨some "s1", none, none⟩
        HandleOutcome.throwClean).closeInvoked = false ∧
    objGet (deleteMcp ⟨[("s1", indexTsTransport 1 none)], 1⟩ ⟨some "s1", none, none⟩
        HandleOutcome.throwClean).state.transports "s1" = some (indexTsTransport 1 none) :=
  delete_error_preserves_session ⟨[("s1", indexTsTransport 1 none)], 1⟩
    ⟨some "s1", none, none⟩ "s1" (indexTsTransport 1 none) rfl rfl
    HandleOutcome.throwClean (by decide)

/-- C2, counterexample: a POST /mcp carrying no `mcp-session-id` header that
matches the manual echo intercept registers no session at all and sets no
`mcp-session-id` response header — the intercept replies and returns before
the session branch runs. -/
theorem sessionless_post_counterexample :
    (postMcp ⟨[], 0⟩ (echoCallRequest none none (some "1") (some "hello"))
        HandleOutcome.ok (indexTsTransport 1 none) 0).state = ⟨[], 0⟩ ∧
    List.countP (fun p => p.1 = "mcp-session-id")
      (postMcp ⟨[], 0⟩ (echoCallRequest none none (some "1") (some "hello"))
        HandleOutcome.ok (indexTsTransport 1 none) 0).response.headers = 0 :=
  ⟨rfl, rfl⟩

/-- C2 (amended): for POST /mcp requests that are not intercepted as manual
echo tool calls: with an absent or unregistered `mcp-session-id` header,
exactly one new session is registered, under the freshly generated id, and
the `mcp-session-id` response header is set exactly once, to that id; a
second POST reusing the returned id routes to the same registered transport
without creating a session and without setting the header again. -/
theorem post_session_lifecycle (st : ServerState) (req1 : Request) (out1 : HandleOutcome)
    (t : Transport) (now : Nat)
    (hni : isEchoIntercept req1.body = false)
    (hno : req1.sessionHeader.bind (fun s => objGet st.transports s) = none)
    (hfresh : objGet st.transports (newSessionIdStr (st.sessionCounter + 1) now) = none)
    (req2 : Request) (out2 : HandleOutcome) (t2 : Transport) (now2 : Nat)
    (hni2 : isEchoIntercept req2.body = false)
    (hsh2 : req2.sessionHeader = some (newSessionIdStr (st.sessionCounter + 1) now)) :
    (postMcp st req1 out1 t now).state.transports
      = st.transports ++ [(newSessionIdStr (st.sessionCounter + 1) now, t)] ∧
    List.countP (fun p => p.1 = "mcp-session-id")
        (postMcp st req1 out1 t now).response.headers = 1 ∧
    ("mcp-session-id", newSessionIdStr (st.sessionCounter + 1) now)
        ∈ (postMcp st req1 out1 t now).response.headers ∧
    (postMcp (postMcp st req1 out1 t now).state req2 out2 t2 now2).routed = some t ∧
    (postMcp (postMcp st req1 out1 t now).state req2 out2 t2 now2).state
      = (postMcp st req1 out1 t now).state ∧
    List.countP (fun p => p.1 = "mcp-session-id")
        (postMcp (postMcp st req1 out1 t now).state req2 out2 t2 now2).response.headers
      = 0 := by
  obtain ⟨hst, hhd, -⟩ := postMcp_create st req1 out1 t now hni hno
  have htr : (postMcp st req1 out1 t now).state.transports
      = st.transports ++ [(newSessionIdStr (st.sessionCounter + 1) now, t)] := by
    rw [hst]
    exact objSet_of_fresh st.transports _ t hfresh
  have hget : objGet (postMcp st req1 out1 t now).state.transports
      (newSessionIdStr (st.sessionCounter + 1) now) = some t := by
    rw [htr]
    exact objGet_append_singleton_self st.transports _ t hfresh
  obtain ⟨hst2, hrt2, hhd2⟩ :=
    postMcp_existing (postMcp st req1 out1 t now).state req2 out2 t2 now2
      (newSessionIdStr (st.sessionCounter + 1) now) t hni2 hsh2 hget
  refine ⟨htr, ?_, ?_, hrt2, hst2, ?_⟩
  · rw [hhd]
    simp [List.countP_append, List.countP_cons, countP_sid_corsMW]
  · rw [hhd]
    simp
  · rw [hhd2]
    simp [List.countP_append, List.countP_cons, countP_sid_corsMW]

/-- The non-echo request used to instantiate `post_session_lifecycle`: a
plain `initialize` call with no session header. -/
def c2FirstRequest : Request :=
  { sessionHeader := none
    origin := none
    body := some { method := some "initialize", paramsName := none
                   message := none, rpcId := some "0" } }

/-- The follow-up request reusing the id issued for `c2FirstRequest`. -/
def c2SecondRequest : Request :=
  { sessionHeader := some (newSessionIdStr 1 5)
    origin := none
    body := some { method := some "tools/list", paramsName := none
                   message := none, rpcId := some "1" } }

/-- Witness for `post_session_lifecycle`: an initialize POST against the
empty registry followed by a POST reusing the issued id. -/
theorem post_session_lifecycle_witness :
    (postMcp ⟨[], 0⟩ c2FirstRequest HandleOutcome.ok (indexTsTransport 1 none) 5).state.transports
      = [] ++ [(newSessionIdStr 1 5, indexTsTransport 1 none)] ∧
    List.countP (fun p => p.1 = "mcp-session-id")
        (postMcp ⟨[], 0⟩ c2FirstRequest HandleOutcome.ok
          (indexTsTransport 1 none) 5).response.headers = 1 ∧
    ("mcp-session-id", newSessionIdStr 1 5)
        ∈ (postMcp ⟨[], 0⟩ c2FirstRequest HandleOutcome.ok
            (indexTsTransport 1 none) 5).response.headers ∧
    (postMcp (postMcp ⟨[], 0⟩ c2FirstRequest HandleOutcome.ok (indexTsTransport 1 none) 5).state
        c2SecondRequest HandleOutcome.ok (indexTsTransport 2 none) 9).routed
      = some (indexTsTransport 1 none) ∧
    (postMcp (postMcp ⟨[], 0⟩ c2FirstRequest HandleOutcome.ok (indexTsTransport 1 none) 5).state
        c2SecondRequest HandleOutcome.ok (indexTsTransport 2 none) 9).state
      = (postMcp ⟨[], 0⟩ c2FirstRequest HandleOutcome.ok (indexTsTransport 1 none) 5).state ∧
    List.countP (fun p => p.1 = "mcp-session-id")
        (postMcp (postMcp ⟨[], 0⟩ c2FirstRequest HandleOutcome.ok (indexTsTransport 1 none) 5).state
          c2SecondRequest HandleOutcome.ok (indexTsTransport 2 none) 9).response.headers = 0 :=
  post_session_lifecycle ⟨[], 0⟩ c2FirstRequest HandleOutcome.ok (indexTsTransport 1 none) 5
    rfl rfl rfl c2SecondRequest HandleOutcome.ok (indexTsTransport 2 none) 9 rfl rfl

/-- C6: GET /health always replies HTTP 200, and under the key-uniqueness
invariant of the registry its `activeSessions` count equals the number of
registered, non-deleted sessions: an id is registered exactly when it is
among the counted ids. -/
theorem health_reports_registered_count (st : ServerState) (req : Request) (s : String)
    (h : (objKeys st.transports).Nodup) :
    (healthGet st req).response.status = 200 ∧
    (healthGet st req).response.writes
      = [Body.health "healthy" (registeredIds st).card] ∧
    (s ∈ registeredIds st ↔ (objGet st.transports s).isSome) := by
  refine ⟨rfl, ?_, ?_⟩
  · simp [healthGet, registeredIds, List.toFinset_card_of_nodup h]
  · rw [objGet_isSome_iff_mem_keys]
    simp [registeredIds]

/-- Witness for `health_reports_registered_count` on a one-session registry. -/
theorem health_reports_registered_count_witness :
    (healthGet ⟨[("s1", indexTsTransport 1 none)], 1⟩ ⟨none, none, none⟩).response.status = 200 ∧
    (healthGet ⟨[("s1", indexTsTransport 1 none)], 1⟩ ⟨none, none, none⟩).response.writes
      = [Body.health "healthy" (registeredIds ⟨[("s1", indexTsTransport 1 none)], 1⟩).card] ∧
    ("s1" ∈ registeredIds ⟨[("s1", indexTsTransport 1 none)], 1⟩
      ↔ (objGet (⟨[("s1", indexTsTransport 1 none)], 1⟩ : ServerState).transports "s1").isSome) :=
  health_reports_registered_count ⟨[("s1", indexTsTransport 1 none)], 1⟩
    ⟨none, none, none⟩ "s1" (by decide)

/-- Every header set by the cors middleware is on the POST /mcp response,
whatever branch the handler takes. -/
theorem corsMW_mem_postMcp (st : ServerState) (req : Request) (out : HandleOutcome)
    (t : Transport) (now : Nat) (p : String × String)
    (hp : p ∈ corsMiddlewareHeaders req.origin) :
    p ∈ (postMcp st req out t now).response.headers := by
  cases hie : isEchoIntercept req.body with
  | true => simp [postMcp, hie, List.mem_append, hp]
  | false =>
      cases hb : req.sessionHeader.bind (fun sid => objGet st.transports sid) with
      | none => cases out <;> simp [postMcp, hie, hb, List.mem_append, hp]
      | some t0 => cases out <;> simp [postMcp, hie, hb, List.mem_append, hp]

/-- Every header set by the cors middleware is on the GET /mcp response,
whatever branch the handler takes. -/
theorem corsMW_mem_getMcp (st : ServerState) (req : Request) (out : HandleOutcome)
    (p : String × String) (hp : p ∈ corsMiddlewareHeaders req.origin) :
    p ∈ (getMcp st req out).response.headers := by
  cases hb : req.sessionHeader.bind (fun sid => objGet st.transports sid) with
  | none => simp [getMcp, hb, List.mem_append, hp]
  | some t0 => cases out <;> simp [getMcp, hb, List.mem_append, hp]

/-- Every header set by the cors middleware is on the DELETE /mcp response,
whatever branch the handler takes. -/
theorem corsMW_mem_deleteMcp (st : ServerState) (req : Request) (out : HandleOutcome)
    (p : String × String) (hp : p ∈ corsMiddlewareHeaders req.origin) :
    p ∈ (deleteMcp st req out).response.headers := by
  cases hsh : req.sessionHeader with
  | none => simp [deleteMcp, hsh, List.mem_append, hp]
  | some sid =>
      cases hr : objGet st.transports sid with
      | none => simp [deleteMcp, hsh, hr, List.mem_append, hp]
      | some t0 => cases out <;> simp [deleteMcp, hsh, hr, List.mem_append, hp]

/-- C7, counterexample: a GET /mcp with a missing session and an Origin
header outside the allow-list is answered 400 with no
`Access-Control-Allow-Origin` header at all — the handler replies before
setting its own headers and the middleware does not reflect a
non-allow-listed origin. -/
theorem cors_nonallowlisted_counterexample :
    (getMcp ⟨[], 0⟩ ⟨none, some "http://evil.com", none⟩ HandleOutcome.ok).response.headers
      = [("Access-Control-Allow-Credentials", "true")] ∧
    List.countP (fun p => p.1 = "Access-Control-Allow-Origin")
      (getMcp ⟨[], 0⟩ ⟨none, some "http://evil.com", none⟩ HandleOutcome.ok).response.headers
      = 0 ∧
    (getMcp ⟨[], 0⟩ ⟨none, some "http://evil.com", none⟩ HandleOutcome.ok).response.status
      = 400 :=
  ⟨rfl, rfl, rfl⟩

/-- C7 (amended): for every /mcp request whose Origin header is one of the
two allow-listed origins, the response — success or error, including the
HTTP 400 missing-session responses — carries both the
`Access-Control-Allow-Origin` and `Access-Control-Allow-Credentials`
headers, on all three verbs and every outcome. -/
theorem cors_headers_on_every_response (st : ServerState) (req : Request) (o : String)
    (ho : req.origin = some o) (hall : o ∈ allowedOrigins)
    (outp outg outd : HandleOutcome) (t : Transport) (now : Nat) :
    (("Access-Control-Allow-Origin", o) ∈ (postMcp st req outp t now).response.headers ∧
     ("Access-Control-Allow-Credentials", "true")
       ∈ (postMcp st req outp t now).response.headers) ∧
    (("Access-Control-Allow-Origin", o) ∈ (getMcp st req outg).response.headers ∧
     ("Access-Control-Allow-Credentials", "true") ∈ (getMcp st req outg).response.headers) ∧
    (("Access-Control-Allow-Origin", o) ∈ (deleteMcp st req outd).response.headers ∧
     ("Access-Control-Allow-Credentials", "true") ∈ (deleteMcp st req outd).response.headers) := by
  have h1 : ("Access-Control-Allow-Origin", o) ∈ corsMiddlewareHeaders req.origin := by
    rw [ho]
    simp [corsMiddlewareHeaders, hall]
  have h2 : ("Access-Control-Allow-Credentials", "true") ∈ corsMiddlewareHeaders req.origin := by
    rw [ho]
    simp [corsMiddlewareHeaders]
  exact ⟨⟨corsMW_mem_postMcp st req outp t now _ h1, corsMW_mem_postMcp st req outp t now _ h2⟩,
         ⟨corsMW_mem_getMcp st req outg _ h1, corsMW_mem_getMcp st req outg _ h2⟩,
         ⟨corsMW_mem_deleteMcp st req outd _ h1, corsMW_mem_deleteMcp st req outd _ h2⟩⟩

/-- Witness for `cors_headers_on_every_response` at the allow-listed origin
`http://localhost:3000` with a missing session. -/
theorem cors_headers_on_every_response_witness :
    (("Access-Control-Allow-Origin", "http://localhost:3000")
       ∈ (postMcp ⟨[], 0⟩ ⟨none, some "http://localhost:3000", none⟩ HandleOutcome.ok
            (indexTsTransport 1 none) 0).response.headers ∧
     ("Access-Control-Allow-Credentials", "true")
       ∈ (postMcp ⟨[], 0⟩ ⟨none, some "http://localhost:3000", none⟩ HandleOutcome.ok
            (indexTsTransport 1 none) 0).response.headers) ∧
    (("Access-Control-Allow-Origin", "http://localhost:3000")
       ∈ (getMcp ⟨[], 0⟩ ⟨none, some "http://localhost:3000", none⟩
            HandleOutcome.ok).response.headers ∧
     ("Access-Control-Allow-Credentials", "true")
       ∈ (getMcp ⟨[], 0⟩ ⟨none, some "http://localhost:3000", none⟩
            HandleOutcome.ok).response.headers) ∧
    (("Access-Control-Allow-Origin", "http://localhost:3000")
       ∈ (deleteMcp ⟨[], 0⟩ ⟨none, some "http://localhost:3000", none⟩
            HandleOutcome.ok).response.headers ∧
     ("Access-Control-Allow-Credentials", "true")
       ∈ (deleteMcp ⟨[], 0⟩ ⟨none, some "http://localhost:3000", none⟩
            HandleOutcome.ok).response.headers) :=
  cors_headers_on_every_response ⟨[], 0⟩ ⟨none, some "http://localhost:3000", none⟩
    "http://localhost:3000" rfl (by decide) HandleOutcome.ok HandleOutcome.ok HandleOutcome.ok
    (indexTsTransport 1 none) 0

/-- C8: when `transport.handleRequest` rejects during POST /mcp dispatch
with nothing flushed, the handler replies HTTP 500 with a JSON-RPC error
envelope of code -32603; when the rejection follows a partial write, the
half-sent response is never followed by a second write. -/
theorem post_dispatch_error_500 (st : ServerState) (req : Request)
    (t : Transport) (now : Nat)
    (hni : isEchoIntercept req.body = false) :
    (postMcp st req HandleOutcome.throwClean t now).response.status = 500 ∧
    (postMcp st req HandleOutcome.throwClean t now).response.writes
      = [Body.rpcError (-32603) "Internal server error"
           (jsOrNull (req.body.bind (fun b => b.rpcId)))] ∧
    (postMcp st req HandleOutcome.throwAfterSend t now).response.writes
      = [Body.halfSent] := by
  cases hb : req.sessionHeader.bind (fun sid => objGet st.transports sid) with
  | none => refine ⟨?_, ?_, ?_⟩ <;> simp [postMcp, hni, hb]
  | some t0 => refine ⟨?_, ?_, ?_⟩ <;> simp [postMcp, hni, hb]

/-- Witness for `post_dispatch_error_500`: a bodyless POST against the
empty registry whose transport rejects. -/
theorem post_dispatch_error_500_witness :
    (postMcp ⟨[], 0⟩ ⟨none, none, none⟩ HandleOutcome.throwClean
        (indexTsTransport 1 none) 0).response.status = 500 ∧
    (postMcp ⟨[], 0⟩ ⟨none, none, none⟩ HandleOutcome.throwClean
        (indexTsTransport 1 none) 0).response.writes
      = [Body.rpcError (-32603) "Internal server error" none] ∧
    (postMcp ⟨[], 0⟩ ⟨none, none, none⟩ HandleOutcome.throwAfterSend
        (indexTsTransport 1 none) 0).response.writes
      = [Body.halfSent] :=
  post_dispatch_error_500 ⟨[], 0⟩ ⟨none, none, none⟩ (indexTsTransport 1 none) 0 rfl

end MCPServer
